import Mathlib

/-!
# Verification of the Blossom CLI uploader (`main.py`)

A shallow embedding of the uploader in `src/main.py`:

* `createAuthEvent` embeds `BlossomUploader._create_auth_event_nostr_python`
  (key decoding, event assembly, the library signing paths and the manual
  fallback that sets a placeholder signature).
* `initUploader` embeds `BlossomUploader.__init__` (host rstrip, nonce
  default, retry parsing, file-existence check).
* `upload` / `uploadGo` embed `BlossomUploader.upload` (file hash, the single
  file handle opened before the loop, the retry loop with exponential
  backoff, token regeneration on the "Auth event already used" response
  substring, and the GitHub-output reporting).

External collaborators (the Nostr library's cryptography, SHA-256, the HTTP
transport, and the clock) are modelled as parameters gathered in `World`;
the uploader's own control flow and string handling are translated directly
from the source.  The trace fields of `RunState` (`sends`, `sleeps`,
`outputs`, `tokens`) record the observable effects the specification talks
about.
-/

namespace Blossom

/-- A key codec: validity and decoding of the two accepted private-key
encodings (bech32-style `nsec` and raw hex), abstracting
`PrivateKey.from_nsec` / `PrivateKey(bytes.fromhex(...))`. -/
structure KeyCodec where
  isValidNsec : String → Bool
  nsecToHex : String → String
  isValidHex : String → Bool

/-- The cryptographic collaborators: SHA-256 (as a function on the
serialized preimage), public-key derivation, Schnorr signing and
verification. -/
structure HashSig where
  sha256 : String → String
  derivePub : String → String
  sign : String → String → String
  verify : String → String → String → Bool

/-- Which signing path of `_create_auth_event_nostr_python` the installed
library version makes reachable at a given call:
`direct` = `event.sign(...)` works (lines 113-115);
`fallbackId` = `event.sign` raises AttributeError/TypeError and
`pk.sign_event_id(event.id)` works (lines 118-121);
`manual` = both library approaches fail with caught exceptions, so the
manual path runs (lines 123-129);
`fatal msg` = `event.sign` raises an exception other than
AttributeError/TypeError, which propagates out of the function. -/
inductive SignBehavior where
  | direct
  | fallbackId
  | manual
  | fatal (msg : String)
deriving DecidableEq, Repr

/-- Errors that can escape `_create_auth_event_nostr_python`:
the two key-decoding failures (lines 60 and 65) and a propagated
signing exception. -/
inductive AuthErr where
  | invalidNsec
  | invalidKeyFormat
  | signFailure (msg : String)
deriving DecidableEq, Repr

/-- Whether an `AuthErr` is a key-decoding error (as opposed to a signing
failure). -/
def AuthErr.isKeyErr : AuthErr → Bool
  | .invalidNsec => true
  | .invalidKeyFormat => true
  | .signFailure _ => false

/-- The `str(e)` rendering used when the error is reported via the
`error` output. -/
def AuthErr.toMsg : AuthErr → String
  | .invalidNsec => "invalid nsec key"
  | .invalidKeyFormat => "Invalid private key format"
  | .signFailure m => m

/-- The Nostr authorization event record (fields of `event.to_dict()`). -/
structure AuthEvent where
  id : String
  pubkey : String
  created_at : Nat
  kind : Nat
  tags : List (List String)
  content : String
  sig : String
deriving DecidableEq, Repr

/-- Whether `pat` is a character-wise prefix of `s` (structural helper for
the string tests below, so that concrete runs reduce inside the kernel). -/
def listIsPre : List Char → List Char → Bool
  | [], _ => true
  | _ :: _, [] => false
  | a :: pa, b :: s => a == b && listIsPre pa s

/-- Whether `pat` occurs as a contiguous sublist. -/
def listHasSub (pat : List Char) : List Char → Bool
  | [] => listIsPre pat []
  | c :: s => listIsPre pat (c :: s) || listHasSub pat s

/-- Embeds Python's `s.startswith(pat)`. -/
def strStarts (s pat : String) : Bool := listIsPre pat.data s.data

/-- Substring test, embedding Python's `pat in text`. -/
def strContains (s pat : String) : Bool := listHasSub pat.data s.data

/-- Embeds reading the rest of an open file: the characters from position
`n` on. -/
def strDrop (s : String) (n : Nat) : String := String.mk (s.data.drop n)

/-- Embeds Python's `host.rstrip('/')`. -/
def rstripSlashes (s : String) : String :=
  String.mk ((s.data.reverse.dropWhile (fun c => c == '/')).reverse)

/-- JSON string literal (the inputs used here need no escaping). -/
def jsonStr (s : String) : String := "\"" ++ s ++ "\""

/-- JSON array with a given separator string. -/
def jsonArr (sep : String) (items : List String) : String :=
  "[" ++ String.intercalate sep items ++ "]"

/-- The canonical NIP-01 serialization of
`[0, pubkey, created_at, kind, tags, content]` with compact separators,
as computed inside the Nostr library when it derives `event.id`. -/
def serializeCompact (pubkey : String) (createdAt : Nat) (kind : Nat)
    (tags : List (List String)) (content : String) : String :=
  jsonArr "," ["0", jsonStr pubkey, toString createdAt, toString kind,
    jsonArr "," (tags.map (fun t => jsonArr "," (t.map jsonStr))), jsonStr content]

/-- The serialization produced by `json.dumps([0, event.pubkey, ...])` with
Python's default separators (a space after each comma), used by the manual
signing fallback at line 125. -/
def serializeDumps (pubkey : String) (createdAt : Nat) (kind : Nat)
    (tags : List (List String)) (content : String) : String :=
  jsonArr ", " ["0", jsonStr pubkey, toString createdAt, toString kind,
    jsonArr ", " (tags.map (fun t => jsonArr ", " (t.map jsonStr))), jsonStr content]

/-- The tag list assembled at lines 77-81: target URL, HTTP method, and the
`payload` nonce. -/
def mkTags (host uniqueId : String) : List (List String) :=
  [["u", host ++ "/upload"], ["method", "POST"], ["payload", uniqueId]]

/-- The `payload` tag value of an event built by `mkTags`. -/
def payloadOf (e : AuthEvent) : String := (e.tags.getD 2 []).getD 1 ""

/-- Key decoding, lines 58-65: an `nsec`-prefixed key goes through
`PrivateKey.from_nsec`, anything else through hex decoding; both failures
are raised before any event is assembled. -/
def decodeKey (kc : KeyCodec) (nsecKey : String) : Except AuthErr String :=
  if strStarts nsecKey "nsec" then
    if kc.isValidNsec nsecKey then .ok (kc.nsecToHex nsecKey)
    else .error .invalidNsec
  else
    if kc.isValidHex nsecKey then .ok nsecKey
    else .error .invalidKeyFormat

/-- `_create_auth_event_nostr_python` (lines 55-131): decode the key,
derive the public key, assemble the kind-27235 event with the `u`,
`method`, `payload` tags, then sign along whichever path `sb` makes
reachable.  The three constructor variants (lines 72-110) build the same
record and are not distinguished.  In the `manual` path the event id is the
SHA-256 of the space-separated `json.dumps` serialization and the signature
is the literal placeholder string from line 129. -/
def createAuthEvent (kc : KeyCodec) (hs : HashSig) (sb : SignBehavior)
    (host uniqueId : String) (timestamp : Nat) (nsecKey : String) :
    Except AuthErr AuthEvent :=
  match decodeKey kc nsecKey with
  | .error e => .error e
  | .ok sk =>
    let pubkey := hs.derivePub sk
    let tags := mkTags host uniqueId
    match sb with
    | .direct =>
        let eid := hs.sha256 (serializeCompact pubkey timestamp 27235 tags "")
        .ok ⟨eid, pubkey, timestamp, 27235, tags, "", hs.sign sk eid⟩
    | .fallbackId =>
        let eid := hs.sha256 (serializeCompact pubkey timestamp 27235 tags "")
        .ok ⟨eid, pubkey, timestamp, 27235, tags, "", hs.sign sk eid⟩
    | .manual =>
        let eid := hs.sha256 (serializeDumps pubkey timestamp 27235 tags "")
        .ok ⟨eid, pubkey, timestamp, 27235, tags, "", "placeholder_signature"⟩
    | .fatal msg => .error (.signFailure msg)

/-- The JSON body of a 200 response, as read by `result.get('url', ...)` and
`result.get('hash', ...)`. -/
structure ServerJson where
  url : Option String
  hash : Option String
deriving DecidableEq, Repr

/-- Outcome of one `requests.post`: a transport-level exception, or a
response with a status code, a text body, and (`some j`) a parseable JSON
body / (`none`) a body on which `response.json()` raises. -/
inductive TResult where
  | exn
  | resp (status : Nat) (text : String) (json : Option ServerJson)
deriving DecidableEq, Repr

/-- The environment of one run: key codec, crypto collaborators, the library
signing behaviour at the k-th `create_auth_event` call, the clock read
inside the k-th `create_auth_event` call (line 69), the clock read at the
nonce regeneration during attempt i (line 232), and the transport outcome
of the i-th POST. -/
structure World where
  kc : KeyCodec
  hs : HashSig
  signB : Nat → SignBehavior
  clock : Nat → Nat
  regenClock : Nat → Nat
  transport : Nat → TResult

/-- The uploader object after `__init__`. -/
structure Uploader where
  host : String
  nsec_key : String
  file_path : String
  content_type : String
  unique_id : String
  retries : Int
deriving DecidableEq, Repr

/-- `BlossomUploader.__init__` (lines 33-43): rstrip trailing slashes from
the host, default the nonce to the decimal Unix time when the caller
supplies an empty one, parse retries, and fail with `FileNotFoundError`
when the path does not exist.  No network, hashing or signing collaborator
is consulted. -/
def initUploader (host nsecKey filePath contentType uniqueId : String)
    (retries : Int) (fileExists : Bool) (initTime : Nat) :
    Except String Uploader :=
  if fileExists then
    .ok { host := rstripSlashes host, nsec_key := nsecKey,
          file_path := filePath, content_type := contentType,
          unique_id := if uniqueId = "" then toString initTime else uniqueId,
          retries := retries }
  else .error ("File not found: " ++ filePath)

/-- The file handle opened at line 189 (or 193): contents, read position,
and whether it was ever closed.  `upload` never calls close on it. -/
structure FileHandle where
  content : String
  pos : Nat
  closed : Bool
deriving DecidableEq, Repr

/-- One POST as observed by the transport: the token attached in the
`Authorization` header and the file bytes the handle yielded as the body. -/
structure SendRec where
  token : AuthEvent
  body : String
deriving DecidableEq, Repr

/-- The mutable state threaded through `upload`: the file handle, the
current nonce (`self.unique_id`), how many `create_auth_event` calls were
made, and the observable traces (POSTs, backoff sleeps, GitHub outputs,
tokens generated). -/
structure RunState where
  handle : FileHandle
  unique_id : String
  authCalls : Nat
  sends : List SendRec
  sleeps : List Nat
  outputs : List (String × String)
  tokens : List AuthEvent
deriving DecidableEq, Repr

/-- A POST at lines 209-213: `requests.post` streams the handle from its
current position to the end (without rewinding it), and the send is
recorded in the trace. -/
def recordSend (tok : AuthEvent) (st : RunState) : RunState :=
  { st with
    handle := { st.handle with pos := st.handle.content.length },
    sends := st.sends ++ [{ token := tok, body := strDrop st.handle.content st.handle.pos }] }

/-- The backoff at lines 237-238 / 241-242: sleep `2 ^ attempt` time units
only when more attempts remain (`attempt < self.retries - 1`). -/
def sleepIfMore (u : Uploader) (attempt : Nat) (st : RunState) : RunState :=
  if (attempt : Int) < u.retries - 1 then
    { st with sleeps := st.sleeps ++ [2 ^ attempt] }
  else st

/-- The retry loop of `upload` (lines 206-247), iterating over
`range(self.retries)`.  `tok` is the event currently in the
`Authorization` header.  On a 200 response with parseable JSON the outputs
are written and the loop returns `True`; a non-200 body containing
`"Auth event already used"` regenerates the nonce and token (a failure of
that regeneration is caught by the generic per-attempt handler at line 239,
so the previous token stays in the header); every other failure just backs
off; an empty attempt list writes the exhaustion outputs (lines 244-247). -/
def uploadGo (w : World) (u : Uploader) (fileHash : String) (fileSize : Nat)
    (tok : AuthEvent) : List Nat → RunState → Bool × RunState
  | [], st =>
      (false, { st with outputs := st.outputs ++
          [("success", "false"),
           ("error", "Failed after " ++ toString u.retries ++ " attempts")] })
  | attempt :: rest, st =>
      let st1 := recordSend tok st
      match w.transport attempt with
      | .exn => uploadGo w u fileHash fileSize tok rest (sleepIfMore u attempt st1)
      | .resp status text json =>
          if status = 200 then
            match json with
            | some j =>
                (true, { st1 with outputs := st1.outputs ++
                    [("url", j.url.getD ""), ("hash", j.hash.getD fileHash),
                     ("size", toString fileSize), ("success", "true")] })
            | none => uploadGo w u fileHash fileSize tok rest (sleepIfMore u attempt st1)
          else
            if strContains text "Auth event already used" then
              let newId := toString (w.regenClock attempt) ++ "-" ++ toString attempt
              let st2 := { st1 with unique_id := newId }
              match createAuthEvent w.kc w.hs (w.signB st2.authCalls) u.host newId
                  (w.clock st2.authCalls) u.nsec_key with
              | .ok tok2 =>
                  uploadGo w u fileHash fileSize tok2 rest
                    (sleepIfMore u attempt
                      { st2 with authCalls := st2.authCalls + 1,
                                 tokens := st2.tokens ++ [tok2] })
              | .error _ =>
                  uploadGo w u fileHash fileSize tok rest
                    (sleepIfMore u attempt { st2 with authCalls := st2.authCalls + 1 })
            else
              uploadGo w u fileHash fileSize tok rest (sleepIfMore u attempt st1)

/-- `BlossomUploader.upload` (lines 175-247): hash the file, open the body
handle (before any signing), build the first auth event — a failure there
writes `success=false` and the error and returns immediately — then run the
retry loop over `range(self.retries)`. -/
def upload (w : World) (u : Uploader) (fileContent : String) : Bool × RunState :=
  let fileHash := w.hs.sha256 fileContent
  let fileSize := fileContent.length
  let st0 : RunState :=
    { handle := { content := fileContent, pos := 0, closed := false },
      unique_id := u.unique_id, authCalls := 0,
      sends := [], sleeps := [], outputs := [], tokens := [] }
  match createAuthEvent w.kc w.hs (w.signB 0) u.host u.unique_id (w.clock 0)
      u.nsec_key with
  | .error e =>
      (false, { st0 with
                authCalls := 1,
                outputs := [("success", "false"), ("error", e.toMsg)] })
  | .ok tok =>
      uploadGo w u fileHash fileSize tok (List.range u.retries.toNat)
        { st0 with authCalls := 1, tokens := [tok] }

/-- `__init__` followed by `upload`: the whole operation as driven by
`main`. -/
def runOperation (w : World) (host nsecKey filePath contentType uniqueId : String)
    (retries : Int) (fileExists : Bool) (initTime : Nat) (fileContent : String) :
    Except String (Bool × RunState) :=
  match initUploader host nsecKey filePath contentType uniqueId retries
      fileExists initTime with
  | .error e => .error e
  | .ok u => .ok (upload w u fileContent)

/-- A concrete key codec used for witnesses: one well-formed nsec key and
one well-formed hex key. -/
def kc0 : KeyCodec :=
  { isValidNsec := fun s => s == "nsec1good",
    nsecToHex := fun _ => "aa11",
    isValidHex := fun s => s == "ab12" }

/-- A concrete, symbolic-string crypto environment used for witnesses: the
hash and signature constructors are injective taggings, and verification
recomputes the unique signature for the claimed public key. -/
def hs0 : HashSig :=
  { sha256 := fun s => "H(" ++ s ++ ")",
    derivePub := fun k => "P(" ++ k ++ ")",
    sign := fun k m => "S(" ++ k ++ "," ++ m ++ ")",
    verify := fun pub m s => s == "S(" ++ (pub.drop 2).dropRight 1 ++ "," ++ m ++ ")" }

/-- World builder for concrete runs. -/
def mkWorld (signB : Nat → SignBehavior) (transport : Nat → TResult) : World :=
  { kc := kc0, hs := hs0, signB := signB,
    clock := fun k => 1700000000 + k,
    regenClock := fun i => 1700000100 + i,
    transport := transport }

/-- Whether a `create_auth_event` outcome is a key-decoding failure. -/
def resultIsKeyErr : Except AuthErr AuthEvent → Bool
  | .error e => e.isKeyErr
  | .ok _ => false

instance {ε α : Type} [DecidableEq ε] [DecidableEq α] : DecidableEq (Except ε α) :=
  fun a b =>
    match a, b with
    | .ok x, .ok y =>
        if h : x = y then .isTrue (congrArg Except.ok h)
        else .isFalse (fun hc => h (Except.ok.inj hc))
    | .error x, .error y =>
        if h : x = y then .isTrue (congrArg Except.error h)
        else .isFalse (fun hc => h (Except.error.inj hc))
    | .ok _, .error _ => .isFalse (fun hc => Except.noConfusion hc)
    | .error _, .ok _ => .isFalse (fun hc => Except.noConfusion hc)

/-- An uploader with a valid raw-hex key (under `kc0`), used in concrete
runs. -/
def upBase : Uploader :=
  { host := "https://h", nsec_key := "ab12", file_path := "f",
    content_type := "", unique_id := "u1", retries := 1 }

/-- `upBase` with a retry budget of 2. -/
def upRetry2 : Uploader := { upBase with retries := 2 }

/-- `upBase` with a retry budget of 3. -/
def upRetry3 : Uploader := { upBase with retries := 3 }

/-- `upBase` with a negative retry budget. -/
def upNeg : Uploader := { upBase with retries := -2 }

/-- The uploader `__init__` produces from an empty caller-supplied nonce at
Unix time 1700000000. -/
def u7 : Uploader :=
  { host := "https://h", nsec_key := "ab12", file_path := "f", content_type := "",
    unique_id := toString (1700000000 : Nat), retries := 3 }

/-- A second, different crypto collaborator, used to show key-decoding
failures do not depend on the hashing/signing functions. -/
def hsAlt : HashSig :=
  { sha256 := fun _ => "ALT", derivePub := fun _ => "ALT",
    sign := fun _ _ => "ALT", verify := fun _ _ _ => true }

/-- A library where only the manual placeholder signing path is reachable;
every POST fails generically. -/
def wManual : World := mkWorld (fun _ => .manual) (fun _ => .resp 500 "err" none)

/-- A working library; every POST fails generically (500). -/
def wFail : World := mkWorld (fun _ => .direct) (fun _ => .resp 500 "err" none)

/-- A library whose signing raises a fatal exception at every call. -/
def wFatal0 : World := mkWorld (fun _ => .fatal "boom") (fun _ => .resp 500 "err" none)

/-- Signing works at the first call and fails fatally from the second call
on; the first POST reports the token as already used, later POSTs fail
generically. -/
def wRegenFatal : World :=
  mkWorld (fun k => if k = 0 then .direct else .fatal "sign boom")
    (fun i => if i = 0 then .resp 401 "Auth event already used" none
              else .resp 500 "err" none)

/-- A working library; the first POST reports the token as already used and
the second succeeds. -/
def wRegen200 : World :=
  mkWorld (fun _ => .direct)
    (fun i => if i = 0 then .resp 401 "Auth event already used" none
              else .resp 200 "ok" (some { url := some "https://h/blob", hash := none }))

/-- A working library; every POST succeeds with a body carrying a `url` but
no `hash`. -/
def wOk200 : World :=
  mkWorld (fun _ => .direct)
    (fun _ => .resp 200 "ok" (some { url := some "https://h/blob", hash := none }))

/-- Any successfully built auth event carries exactly the tag list assembled
at lines 77-81 for the nonce it was built with. -/
theorem createAuthEvent_ok_tags (kc : KeyCodec) (hs : HashSig) (sb : SignBehavior)
    (host uniqueId : String) (ts : Nat) (key : String) (tok : AuthEvent)
    (h : createAuthEvent kc hs sb host uniqueId ts key = .ok tok) :
    tok.tags = mkTags host uniqueId := by
  unfold createAuthEvent at h
  cases hdk : decodeKey kc key <;> rw [hdk] at h
  · cases h
  · cases sb <;> simp only [Except.ok.injEq] at h <;> (try cases h) <;> rfl

/-- The `payload` tag of an event tagged by `mkTags` is its nonce. -/
theorem payloadOf_mkTags (host uniqueId : String) (tok : AuthEvent)
    (h : tok.tags = mkTags host uniqueId) : payloadOf tok = uniqueId := by
  simp [payloadOf, mkTags, h]

/-- `__init__` stores the caller's nonce, defaulting an empty one to the
decimal Unix time. -/
theorem initUploader_ok_unique_id (host nsecKey filePath contentType uniqueId : String)
    (retries : Int) (fe : Bool) (initTime : Nat) (u : Uploader)
    (h : initUploader host nsecKey filePath contentType uniqueId retries fe initTime =
      .ok u) :
    u.unique_id = if uniqueId = "" then toString initTime else uniqueId := by
  unfold initUploader at h
  cases fe
  · cases h
  · simp only [if_true, Except.ok.injEq] at h
    cases h
    rfl

/-- C1: refuted on the code.  When both library signing approaches are
unavailable and the manual fallback of lines 123-129 runs, the uploader
transmits an authorization event whose `sig` is the literal
`"placeholder_signature"`, which does not verify against its `pubkey` and
`id`: with a valid hex key, the single POST of this run carries exactly
such an event.  (The code's own comment at line 128 concedes the signature
is a placeholder.) -/
theorem c1_manual_fallback_transmits_placeholder_sig :
    (upload wManual upBase "data").2.sends.map
        (fun r => (r.token.sig, wManual.hs.verify r.token.pubkey r.token.id r.token.sig)) =
      [("placeholder_signature", false)] ∧
    (upload wManual upBase "data").2.tokens.length = 1 := by decide

/-- C5: refuted on the code.  The file handle is opened once before the
retry loop and never rewound or closed: in a two-attempt run over a file
containing "hello", the first POST body is the full content but the second
POST body is empty, and the handle is still open when the operation
terminates — also on the early-abort path where signing fails before any
POST. -/
theorem c5_stale_file_handle_on_retry :
    (upload wFail upRetry2 "hello").2.sends.map (fun r => r.body) = ["hello", ""] ∧
    (upload wFail upRetry2 "hello").2.handle.closed = false ∧
    (upload wFail upRetry2 "hello").1 = false ∧
    (upload wFatal0 upBase "data").2.handle.closed = false := by decide

/-- C9: when the configured file path does not exist, `__init__` raises
`FileNotFoundError` and the whole operation yields that error for every
world — every transport, signer and clock alike — so no network request
and no signing work can have occurred. -/
theorem c9_missing_file_fails_before_any_work (w : World)
    (host nsecKey filePath contentType uniqueId : String) (retries : Int)
    (initTime : Nat) (fc : String) :
    runOperation w host nsecKey filePath contentType uniqueId retries false initTime fc =
      Except.error ("File not found: " ++ filePath) := by
  simp [runOperation, initUploader]

/-- C6: a malformed private key — an `nsec`-prefixed string the codec
rejects, or a non-`nsec` string that is not valid hex — makes
`_create_auth_event_nostr_python` fail with a key-decoding error, and the
outcome is identical under any hashing/signing collaborator and any
library signing path, so no hashing or signing step is ever reached. -/
theorem c6_invalid_key_rejected_before_signing (kc : KeyCodec)
    (hs hs' : HashSig) (sb sb' : SignBehavior) (host uniqueId : String)
    (ts : Nat) (key : String)
    (h : (strStarts key "nsec" = true ∧ kc.isValidNsec key = false) ∨
         (strStarts key "nsec" = false ∧ kc.isValidHex key = false)) :
    resultIsKeyErr (createAuthEvent kc hs sb host uniqueId ts key) = true ∧
    createAuthEvent kc hs sb host uniqueId ts key =
      createAuthEvent kc hs' sb' host uniqueId ts key := by
  rcases h with ⟨h1, h2⟩ | ⟨h1, h2⟩ <;>
    simp [createAuthEvent, decodeKey, h1, h2, resultIsKeyErr, AuthErr.isKeyErr]

/-- Witness for C6 at the malformed hex key "zz99" under the concrete codec
`kc0`: the event construction fails with a key error, identically under the
alternative collaborator `hsAlt` and the manual signing path. -/
theorem c6_invalid_key_rejected_before_signing_witness :
    resultIsKeyErr (createAuthEvent kc0 hs0 .direct "https://h" "u1" 5 "zz99") = true ∧
    createAuthEvent kc0 hs0 .direct "https://h" "u1" 5 "zz99" =
      createAuthEvent kc0 hsAlt .manual "https://h" "u1" 5 "zz99" :=
  c6_invalid_key_rejected_before_signing kc0 hs0 hsAlt .direct .manual "https://h" "u1" 5
    "zz99" (Or.inr ⟨by decide, by decide⟩)

/-- C2, counterexample: at a concrete input where signing fails fatally
during token regeneration (the regeneration call returns the signing
error), the uploader does not abort: it makes a second send attempt after
the failure, and the reported error is the retry-exhaustion message, not
the signing error — so a fatal signer error inside the retry loop is
retried, contrary to the claim. -/
theorem c2_regen_signing_failure_retried_cex :
    createAuthEvent wRegenFatal.kc wRegenFatal.hs (wRegenFatal.signB 1) upRetry2.host
        (toString (wRegenFatal.regenClock 0) ++ "-" ++ toString 0) (wRegenFatal.clock 1)
        upRetry2.nsec_key = Except.error (AuthErr.signFailure "sign boom") ∧
    (upload wRegenFatal upRetry2 "data").2.sends.length = 2 ∧
    (upload wRegenFatal upRetry2 "data").2.outputs =
      [("success", "false"), ("error", "Failed after 2 attempts")] := by decide

/-- C2, amended: a failure of the initial token construction or signing
aborts the upload immediately — no send attempt, `success=false`, the error
surfaced — and is not retried; but a signing failure during token
regeneration inside the retry loop is caught by the generic per-attempt
handler: no new token is recorded, the send is retried with the previous
token (same `payload` nonce on both POSTs), and the signing error is not
the one reported. -/
theorem c2_signing_failure_handling :
    (∀ (w : World) (u : Uploader) (fc : String) (e : AuthErr),
      createAuthEvent w.kc w.hs (w.signB 0) u.host u.unique_id (w.clock 0) u.nsec_key =
        Except.error e →
      upload w u fc = (false,
        { handle := { content := fc, pos := 0, closed := false },
          unique_id := u.unique_id, authCalls := 1, sends := [], sleeps := [],
          outputs := [("success", "false"), ("error", e.toMsg)], tokens := [] })) ∧
    (∀ (w : World) (u : Uploader) (fc : String) (s0 : Nat) (t0 t1 : String)
        (j0 : Option ServerJson) (m : String),
      (∃ tok, createAuthEvent w.kc w.hs (w.signB 0) u.host u.unique_id (w.clock 0)
        u.nsec_key = Except.ok tok) →
      u.retries = 2 →
      w.transport 0 = TResult.resp s0 t0 j0 →
      s0 ≠ 200 →
      strContains t0 "Auth event already used" = true →
      createAuthEvent w.kc w.hs (w.signB 1) u.host
          (toString (w.regenClock 0) ++ "-" ++ toString 0) (w.clock 1) u.nsec_key =
        Except.error (AuthErr.signFailure m) →
      w.transport 1 = TResult.resp 500 t1 none →
      strContains t1 "Auth event already used" = false →
      (upload w u fc).1 = false ∧
      (upload w u fc).2.sends.length = 2 ∧
      (upload w u fc).2.sends.map (fun r => payloadOf r.token) =
        [u.unique_id, u.unique_id] ∧
      (upload w u fc).2.tokens.length = 1 ∧
      (upload w u fc).2.outputs =
        [("success", "false"),
         ("error", "Failed after " ++ toString u.retries ++ " attempts")]) := by
  constructor
  · intro w u fc e h
    simp [upload, h]
  · intro w u fc s0 t0 t1 j0 m h0 hr ht0 hne hsub h1 ht1 hb1
    obtain ⟨tok0, h0⟩ := h0
    have hp0 := payloadOf_mkTags _ _ _ (createAuthEvent_ok_tags _ _ _ _ _ _ _ _ h0)
    have hrange : List.range u.retries.toNat = [0, 1] := by rw [hr]; rfl
    refine ⟨?_, ?_, ?_, ?_, ?_⟩ <;>
      simp [upload, uploadGo, h0, h1, hr, hrange, ht0, ht1, hne, hsub, hb1,
            recordSend, sleepIfMore, hp0]

/-- Witness for C2 at concrete inputs: an always-fatal signer makes the
upload abort with zero sends and the signing error surfaced; a signer that
fails only at the regeneration call leads to two sends with the original
nonce, one recorded token, and the exhaustion message. -/
theorem c2_signing_failure_handling_witness :
    (upload wFatal0 upBase "data" = (false,
      { handle := { content := "data", pos := 0, closed := false },
        unique_id := "u1", authCalls := 1, sends := [], sleeps := [],
        outputs := [("success", "false"), ("error", "boom")], tokens := [] })) ∧
    ((upload wRegenFatal upRetry2 "data").1 = false ∧
     (upload wRegenFatal upRetry2 "data").2.sends.length = 2 ∧
     (upload wRegenFatal upRetry2 "data").2.sends.map (fun r => payloadOf r.token) =
       [upRetry2.unique_id, upRetry2.unique_id] ∧
     (upload wRegenFatal upRetry2 "data").2.tokens.length = 1 ∧
     (upload wRegenFatal upRetry2 "data").2.outputs =
       [("success", "false"),
        ("error", "Failed after " ++ toString upRetry2.retries ++ " attempts")]) :=
  ⟨c2_signing_failure_handling.1 wFatal0 upBase "data" (AuthErr.signFailure "boom") rfl,
   c2_signing_failure_handling.2 wRegenFatal upRetry2 "data" 401 "Auth event already used"
     "err" none "sign boom" ⟨_, rfl⟩ rfl rfl (by decide) (by decide) rfl rfl (by decide)⟩

/-- C3: if attempt 0 fails with a body containing "Auth event already
used" and attempt 1 returns 200, the uploader mints a new nonce (the
regeneration-time Unix time, a dash, and the zero-based attempt index),
builds exactly one new token carrying that nonce as its `payload` tag,
makes exactly 2 send attempts — the second with the fresh token — and
reports success. -/
theorem c3_token_regeneration_scenario (w : World) (u : Uploader) (fc : String)
    (s0 : Nat) (t0 t1 : String) (j0 : Option ServerJson) (j : ServerJson)
    (h0 : ∃ tok, createAuthEvent w.kc w.hs (w.signB 0) u.host u.unique_id (w.clock 0)
        u.nsec_key = Except.ok tok)
    (hr : u.retries = 2)
    (ht0 : w.transport 0 = TResult.resp s0 t0 j0)
    (hne : s0 ≠ 200)
    (hsub : strContains t0 "Auth event already used" = true)
    (h1 : ∃ tok, createAuthEvent w.kc w.hs (w.signB 1) u.host
        (toString (w.regenClock 0) ++ "-" ++ toString 0) (w.clock 1) u.nsec_key =
        Except.ok tok)
    (ht1 : w.transport 1 = TResult.resp 200 t1 (some j))
    (hdiff : u.unique_id ≠ toString (w.regenClock 0) ++ "-" ++ toString 0) :
    (upload w u fc).1 = true ∧
    (upload w u fc).2.sends.length = 2 ∧
    (upload w u fc).2.tokens.length = 2 ∧
    (upload w u fc).2.tokens.map payloadOf =
      [u.unique_id, toString (w.regenClock 0) ++ "-" ++ toString 0] ∧
    (upload w u fc).2.sends.map (fun r => payloadOf r.token) =
      [u.unique_id, toString (w.regenClock 0) ++ "-" ++ toString 0] ∧
    u.unique_id ≠ toString (w.regenClock 0) ++ "-" ++ toString 0 ∧
    (upload w u fc).2.outputs.getLast? = some ("success", "true") := by
  obtain ⟨tok0, h0⟩ := h0
  obtain ⟨tok1, h1⟩ := h1
  have hp0 := payloadOf_mkTags _ _ _ (createAuthEvent_ok_tags _ _ _ _ _ _ _ _ h0)
  have hp1 := payloadOf_mkTags _ _ _ (createAuthEvent_ok_tags _ _ _ _ _ _ _ _ h1)
  have hrange : List.range u.retries.toNat = [0, 1] := by rw [hr]; rfl
  refine ⟨?_, ?_, ?_, ?_, ?_, hdiff, ?_⟩ <;>
    simp [upload, uploadGo, h0, h1, hr, hrange, ht0, ht1, hne, hsub, recordSend,
          sleepIfMore, hp0, hp1]

/-- Witness for C3: replay signal on attempt 0, success on attempt 1, with
the default-style nonce "u1"; one regenerated token with nonce
"1700000100-0", two sends, success reported. -/
theorem c3_token_regeneration_scenario_witness :
    (upload wRegen200 upRetry2 "data").1 = true ∧
    (upload wRegen200 upRetry2 "data").2.sends.length = 2 ∧
    (upload wRegen200 upRetry2 "data").2.tokens.length = 2 ∧
    (upload wRegen200 upRetry2 "data").2.tokens.map payloadOf =
      [upRetry2.unique_id, toString (wRegen200.regenClock 0) ++ "-" ++ toString 0] ∧
    (upload wRegen200 upRetry2 "data").2.sends.map (fun r => payloadOf r.token) =
      [upRetry2.unique_id, toString (wRegen200.regenClock 0) ++ "-" ++ toString 0] ∧
    upRetry2.unique_id ≠ toString (wRegen200.regenClock 0) ++ "-" ++ toString 0 ∧
    (upload wRegen200 upRetry2 "data").2.outputs.getLast? = some ("success", "true") :=
  c3_token_regeneration_scenario wRegen200 upRetry2 "data" 401 "Auth event already used"
    "ok" none { url := some "https://h/blob", hash := none } ⟨_, rfl⟩ rfl rfl
    (by decide) (by decide) ⟨_, rfl⟩ rfl (by decide)

/-- C4: when every POST fails generically (a 500 whose body does not carry
the replay signal) and the retry budget is 3, the uploader makes exactly 3
send attempts, sleeps 1 = 2^0 and then 2 = 2^1 time units between
consecutive attempts (zero-based attempt index, strictly increasing), and
terminates with `success=false` and the error "Failed after 3 attempts". -/
theorem c4_retry_exhaustion_scenario (w : World) (u : Uploader) (fc body : String)
    (h0 : ∃ tok, createAuthEvent w.kc w.hs (w.signB 0) u.host u.unique_id (w.clock 0)
        u.nsec_key = Except.ok tok)
    (hr : u.retries = 3)
    (ht : ∀ i, i < 3 → w.transport i = TResult.resp 500 body none)
    (hb : strContains body "Auth event already used" = false) :
    (upload w u fc).1 = false ∧
    (upload w u fc).2.sends.length = 3 ∧
    (upload w u fc).2.sleeps = [1, 2] ∧
    (upload w u fc).2.outputs =
      [("success", "false"),
       ("error", "Failed after " ++ toString u.retries ++ " attempts")] := by
  obtain ⟨tok0, h0⟩ := h0
  have ht0 := ht 0 (by norm_num)
  have ht1 := ht 1 (by norm_num)
  have ht2 := ht 2 (by norm_num)
  have hrange : List.range u.retries.toNat = [0, 1, 2] := by rw [hr]; rfl
  refine ⟨?_, ?_, ?_, ?_⟩ <;>
    simp [upload, uploadGo, h0, hr, hrange, ht0, ht1, ht2, hb, recordSend, sleepIfMore]

/-- Witness for C4: always-500 transport, retry budget 3: three sends,
sleeps [1, 2], failure reported as "Failed after 3 attempts". -/
theorem c4_retry_exhaustion_scenario_witness :
    (upload wFail upRetry3 "data").1 = false ∧
    (upload wFail upRetry3 "data").2.sends.length = 3 ∧
    (upload wFail upRetry3 "data").2.sleeps = [1, 2] ∧
    (upload wFail upRetry3 "data").2.outputs =
      [("success", "false"),
       ("error", "Failed after " ++ toString upRetry3.retries ++ " attempts")] :=
  c4_retry_exhaustion_scenario wFail upRetry3 "data" "err" ⟨_, rfl⟩ rfl
    (fun _ _ => rfl) (by decide)

/-- C7, counterexample: constructed with no external nonce at Unix time
1700000000 and uploading a file containing "hello", the single signed
event's `payload` nonce is the timestamp string "1700000000", while the
locally computed file hash is "H(hello)" — and the two differ, so the file
content hash does not serve as the `payload` nonce. -/
theorem c7_default_nonce_not_file_hash_cex :
    (initUploader "https://h" "ab12" "f" "" "" 3 true 1700000000).map
        (fun u => ((upload wOk200 u "hello").2.tokens.map payloadOf,
                   wOk200.hs.sha256 "hello")) =
      Except.ok (["1700000000"], "H(hello)") ∧
    ("1700000000" : String) ≠ "H(hello)" := by decide

/-- C7, amended: when no external nonce is supplied by the caller, the
decimal Unix timestamp taken at construction time serves as the `payload`
nonce of the signed authorization event; the locally computed file hash is
used only for reporting (it is the fallback for the `hash` output), not as
the nonce. -/
theorem c7_default_nonce_is_timestamp (host nsecKey filePath contentType : String)
    (retries : Int) (initTime : Nat) (u : Uploader) (kc : KeyCodec) (hs : HashSig)
    (sb : SignBehavior) (ts : Nat)
    (hinit : initUploader host nsecKey filePath contentType "" retries true initTime =
      Except.ok u)
    (hok : ∃ tok, createAuthEvent kc hs sb u.host u.unique_id ts u.nsec_key =
      Except.ok tok) :
    u.unique_id = toString initTime ∧
    (createAuthEvent kc hs sb u.host u.unique_id ts u.nsec_key).map payloadOf =
      Except.ok (toString initTime) := by
  obtain ⟨tok, htok⟩ := hok
  have hu : u.unique_id = toString initTime := by
    rw [initUploader_ok_unique_id _ _ _ _ _ _ _ _ _ hinit]
    simp
  have hp := payloadOf_mkTags _ _ _ (createAuthEvent_ok_tags _ _ _ _ _ _ _ _ htok)
  rw [htok]
  exact ⟨hu, by simp [Except.map, hp, hu]⟩

/-- Witness for C7 at the concrete default-nonce uploader `u7` built at
Unix time 1700000000: its nonce is "1700000000" and the signed event's
`payload` is the same string. -/
theorem c7_default_nonce_is_timestamp_witness :
    u7.unique_id = toString (1700000000 : Nat) ∧
    (createAuthEvent kc0 hs0 .direct u7.host u7.unique_id 1700000005 u7.nsec_key).map
        payloadOf = Except.ok (toString (1700000000 : Nat)) :=
  c7_default_nonce_is_timestamp "https://h" "ab12" "f" "" 3 1700000000 u7 kc0 hs0
    .direct 1700000005 (by decide) ⟨_, rfl⟩

/-- C8: on an HTTP 200 response with a parseable JSON body, the upload
reports success and writes the `url` from the body, the `hash` from the
body with the locally computed SHA-256 digest of the file as fallback when
absent, the file size, and `success=true`, after a single send attempt. -/
theorem c8_success_reporting (w : World) (u : Uploader) (fc t0 : String)
    (j : ServerJson)
    (h0 : ∃ tok, createAuthEvent w.kc w.hs (w.signB 0) u.host u.unique_id (w.clock 0)
        u.nsec_key = Except.ok tok)
    (hr : 1 ≤ u.retries)
    (ht0 : w.transport 0 = TResult.resp 200 t0 (some j)) :
    (upload w u fc).1 = true ∧
    (upload w u fc).2.outputs =
      [("url", j.url.getD ""), ("hash", j.hash.getD (w.hs.sha256 fc)),
       ("size", toString fc.length), ("success", "true")] ∧
    (upload w u fc).2.sends.length = 1 := by
  obtain ⟨tok0, h0⟩ := h0
  obtain ⟨k, hk⟩ : ∃ k, u.retries.toNat = k + 1 := ⟨u.retries.toNat - 1, by omega⟩
  refine ⟨?_, ?_, ?_⟩ <;>
    simp [upload, uploadGo, h0, hk, List.range_succ_eq_map, ht0, recordSend]

/-- Witness for C8: a 200 response whose body has a `url` but no `hash`;
the hash output falls back to the locally computed digest of "hello". -/
theorem c8_success_reporting_witness :
    (upload wOk200 upBase "hello").1 = true ∧
    (upload wOk200 upBase "hello").2.outputs =
      [("url", (some "https://h/blob").getD ""),
       ("hash", (none : Option String).getD (wOk200.hs.sha256 "hello")),
       ("size", toString ("hello" : String).length), ("success", "true")] ∧
    (upload wOk200 upBase "hello").2.sends.length = 1 :=
  c8_success_reporting wOk200 upBase "hello" "ok"
    { url := some "https://h/blob", hash := none } ⟨_, rfl⟩ (by decide) rfl

/-- C10: with a retry budget at or below zero the loop body never runs —
zero send attempts and zero backoff sleeps — yet the token is still
constructed before the loop, and the run reports `success=false` with the
error string "Failed after N attempts" for the configured N. -/
theorem c10_nonpositive_retries_scenario (w : World) (u : Uploader) (fc : String)
    (h0 : ∃ tok, createAuthEvent w.kc w.hs (w.signB 0) u.host u.unique_id (w.clock 0)
        u.nsec_key = Except.ok tok)
    (hr : u.retries ≤ 0) :
    (upload w u fc).1 = false ∧
    (upload w u fc).2.sends = [] ∧
    (upload w u fc).2.sleeps = [] ∧
    (upload w u fc).2.tokens.length = 1 ∧
    (upload w u fc).2.outputs =
      [("success", "false"),
       ("error", "Failed after " ++ toString u.retries ++ " attempts")] := by
  obtain ⟨tok0, h0⟩ := h0
  have hn : u.retries.toNat = 0 := by omega
  refine ⟨?_, ?_, ?_, ?_, ?_⟩ <;> simp [upload, uploadGo, h0, hn]

/-- Witness for C10 at retry budget -2: no sends, no sleeps, one token,
and the error "Failed after -2 attempts". -/
theorem c10_nonpositive_retries_scenario_witness :
    (upload wFail upNeg "data").1 = false ∧
    (upload wFail upNeg "data").2.sends = [] ∧
    (upload wFail upNeg "data").2.sleeps = [] ∧
    (upload wFail upNeg "data").2.tokens.length = 1 ∧
    (upload wFail upNeg "data").2.outputs =
      [("success", "false"),
       ("error", "Failed after " ++ toString upNeg.retries ++ " attempts")] :=
  c10_nonpositive_retries_scenario wFail upNeg "data" ⟨_, rfl⟩ (by decide)

end Blossom
